import Mathlib

/-!
Verification of the research-workflow orchestration engine
(`src/nodes/*.py`, `src/graph/*.py`, `src/api/research_manager.py`,
`src/schemas/data_models.py`) against its natural-language specification.

Modelling conventions:
* Python strings are Lean `String`s; `s[:n]` is `String.take`, `x in s` is
  `pyIn`, `s.strip()` is `String.trim`.
* Python floats (relevance scores) are modelled as rationals `ℚ`; only
  order comparisons and means are performed on them, so no rounding
  behaviour is observable.
* `datetime` values are abstract `Nat` timestamps.
* External capabilities (text completion, web search) are oracles passed
  as explicit arguments: a call that may raise is an `Option`/sum value.
* Pydantic model construction is a total function returning `Option`:
  `none` models a raised `ValidationError`.
-/

namespace ResearchAgent

/-- Split a character list at each non-overlapping occurrence of `sep`,
left to right; `fuel` is an upper bound on the number of steps (callers
pass the list length plus one, which always suffices). Structural recursion
on the fuel keeps the function kernel-reducible. -/
def splitOnFuel (sep : List Char) : Nat → List Char → List Char → List (List Char)
  | 0, l, acc => [acc.reverse ++ l]
  | _ + 1, [], acc => [acc.reverse]
  | fuel + 1, c :: rest, acc =>
    if sep ≠ [] ∧ sep.isPrefixOf (c :: rest) then
      acc.reverse :: splitOnFuel sep fuel (List.drop (sep.length - 1) rest) []
    else splitOnFuel sep fuel rest (c :: acc)

/-- Python `s.split(sep)` for a non-empty separator. -/
def pySplit (s sep : String) : List String :=
  (splitOnFuel sep.toList (s.toList.length + 1) s.toList []).map String.mk

/-- Python `s.lower()` (the orchestration code only tests ASCII patterns
against it). -/
def pyLower (s : String) : String := String.mk (s.toList.map Char.toLower)

/-- Python `s.strip()`. -/
def pyStrip (s : String) : String :=
  String.mk ((s.toList.dropWhile Char.isWhitespace).reverse.dropWhile
    Char.isWhitespace).reverse

/-- Test that `s` begins with `p` (the regex `^p` for a literal `p`). -/
def strStartsWith (s p : String) : Bool := p.toList.isPrefixOf s.toList

/-- Python `pat in s` for a non-empty pattern `pat`. -/
def pyIn (pat s : String) : Bool := (pySplit s pat).length > 1

/-- Python `s.rsplit(sep, 1)[0]`: everything before the last occurrence of
`sep`, or `s` itself when `sep` does not occur. -/
def pyRsplit1 (s sep : String) : String :=
  let ps := pySplit s sep
  if ps.length ≤ 1 then s else String.intercalate sep ps.dropLast

/-- Python `s.split("\n", 1)[1]` (callers guard that `"\n" in s`). -/
def pyAfterFirstNewline (s : String) : String :=
  String.intercalate "\n" (pySplit s "\n").tail

/-- Model of `Settings` (src/config/settings.py): the configuration fields the
orchestration core reads. -/
structure Settings where
  MAX_ITERATIONS : Nat := 5
  MAX_SEARCH_RESULTS : Nat := 10
  MAX_RESULTS_PER_QUERY : Nat := 5
  SUMMARY_MAX_LENGTH : Nat := 300
deriving Repr, DecidableEq

/-- Default settings values from src/config/settings.py. -/
def defaultSettings : Settings := {}

/-- One entry of the LangGraph message log: a `HumanMessage` or `AIMessage`
with its text content. -/
structure Message where
  role : String
  content : String
deriving Repr, DecidableEq

/-- An `AIMessage(content=...)` as appended by the nodes. -/
def aiMsg (content : String) : Message := ⟨"ai", content⟩

/-- Model of `SearchResult` (src/schemas/data_models.py): the pydantic model, fields
only; validation is the separate predicate `searchResultValid`. -/
structure SearchResult where
  title : String
  summary : String
  source : String
  url : String
  published_date : Option String := none
  authors : Option (List String) := none
  categories : Option (List String) := none
  relevance_score : Option ℚ := none
deriving Repr, DecidableEq

/-- The regex `^\d{4}-\d{2}-\d{2}$` on `published_date`. -/
def dateLike (s : String) : Bool :=
  match s.toList with
  | [a, b, c, d, e, f, g, h, i, j] =>
    a.isDigit && b.isDigit && c.isDigit && d.isDigit && e = '-' &&
    f.isDigit && g.isDigit && h = '-' && i.isDigit && j.isDigit
  | _ => false

/-- The pydantic field constraints of `SearchResult`
(src/schemas/data_models.py lines 54-94): `title` 1..500 chars, `summary`
1..2000 chars, `source ∈ {tavily, arxiv}`, `url` matches `^https?://`,
optional `published_date` matches a date pattern, optional `authors` ≤ 50,
optional `categories` ≤ 20, optional `relevance_score ∈ [0, 1]`. -/
def searchResultValid (r : SearchResult) : Bool :=
  1 ≤ r.title.length && r.title.length ≤ 500 &&
  1 ≤ r.summary.length && r.summary.length ≤ 2000 &&
  (r.source = "tavily" || r.source = "arxiv") &&
  (strStartsWith r.url "http://" || strStartsWith r.url "https://") &&
  (match r.published_date with
   | none => true
   | some d => dateLike d) &&
  (match r.authors with
   | none => true
   | some l => l.length ≤ 50) &&
  (match r.categories with
   | none => true
   | some l => l.length ≤ 20) &&
  (match r.relevance_score with
   | none => true
   | some q => 0 ≤ q && q ≤ 1)

/-- Pydantic construction `SearchResult(...)`; `none` models a raised
`ValidationError`. -/
def mkSearchResult (r : SearchResult) : Option SearchResult :=
  if searchResultValid r then some r else none

/-- Model of `ResearchPlan` (src/schemas/data_models.py): `created_at` (wall-clock)
and the defaulted `source_priority` map are abstracted away; no code in the
orchestration core reads them. -/
structure ResearchPlan where
  theme : String
  investigation_points : List String
  search_queries : List String
  plan_text : String
deriving Repr, DecidableEq

/-- Modelled from the spec: `ensure_research_plan` is imported by every node
from `src.schemas.data_models` but its definition is absent from the sources
provided; per §3 of the spec `plan` is "optional structured object", and the
function normalizes a checkpoint-restored plain record back into the
structured plan (or `None`). In this embedding `task_plan` is already
structured, so the normalization is the identity on `Option ResearchPlan`. -/
def ensure_research_plan (p : Option ResearchPlan) : Option ResearchPlan := p

/-- Model of `ResearchState` (src/graph/state.py). -/
structure ResearchState where
  messages : List Message
  task_plan : Option ResearchPlan
  research_data : List SearchResult
  current_draft : Option String
  feedback : Option String
  iteration_count : Nat
  next_action : String
  human_input_required : Bool
  human_input : Option String
deriving Repr, DecidableEq

/-- The initial state built by `ResearchManager.create_research`
(src/api/research_manager.py lines 125-135). -/
def initialState (theme : String) : ResearchState where
  messages := [⟨"human", theme⟩]
  task_plan := none
  research_data := []
  current_draft := none
  feedback := none
  iteration_count := 0
  next_action := "research"
  human_input_required := false
  human_input := none

/-! ## Evidence gatherer (src/nodes/researcher.py) -/

/-- One raw search hit as returned by the search capability: a Python dict,
so every key may be absent (`Option`); `result.get(k, default)` is
`Option.getD`. -/
structure RawResult where
  title : Option String := none
  content : Option String := none
  url : Option String := none
  score : Option ℚ := none
  published_date : Option String := none
deriving Repr, DecidableEq

/-- Model of `_create_search_result_with_summary` (src/nodes/researcher.py lines
60-111). `summarizeOutcome` is the outcome of `summarize_url_content`:
`some s` when it returned summary `s`, `none` when it raised — in which
case the summary falls back to `content[:settings.SUMMARY_MAX_LENGTH]`.
A pydantic `ValidationError` from `SearchResult(...)` is caught by the
outer `except` and yields `None`. The leading underscore of the Python
name is dropped. -/
def create_search_result_with_summary (settings : Settings)
    (summarizeOutcome : Option String) (result : RawResult)
    (existing_urls : List String) : Option SearchResult :=
  let content := result.content.getD ""
  let url := result.url.getD ""
  if url ∈ existing_urls then none
  else
    let summary :=
      match summarizeOutcome with
      | some s => s
      | none =>
        if content.length > settings.SUMMARY_MAX_LENGTH then
          content.take settings.SUMMARY_MAX_LENGTH
        else content
    mkSearchResult
      { title := result.title.getD ""
        summary := summary
        source := "tavily"
        url := url
        published_date := result.published_date
        relevance_score := some (result.score.getD 0) }

/-- The in-pass URL de-duplication loop of `researcher_node` (lines
168-175): keep a raw result iff its url is non-empty, not yet seen in this
pass, and not among the urls already in `research_data`. -/
def dedupByUrl (existing_urls : List String) :
    List RawResult → List String → List RawResult
  | [], _ => []
  | r :: rest, seen =>
    if r.url.getD "" ≠ "" ∧ r.url.getD "" ∉ seen ∧ r.url.getD "" ∉ existing_urls then
      r :: dedupByUrl existing_urls rest (r.url.getD "" :: seen)
    else
      dedupByUrl existing_urls rest seen

/-- The summarization fan-out plus collection loop of `researcher_node`
(lines 180-193): `run_parallel_sync` returns results in task order, and only
non-`None` results are collected. `summarize i` is the outcome of the
summarization call for the `i`-th unique candidate. -/
def summarizeAll (settings : Settings) (summarize : Nat → Option String)
    (existing_urls : List String) : Nat → List RawResult → List SearchResult
  | _, [] => []
  | i, r :: rest =>
    match create_search_result_with_summary settings (summarize i) r existing_urls with
    | some sr => sr :: summarizeAll settings summarize existing_urls (i + 1) rest
    | none => summarizeAll settings summarize existing_urls (i + 1) rest

/-- Model of `researcher_node` (src/nodes/researcher.py lines 114-207).
`search q` is the result list of `_execute_search` for query `q` (that
helper catches every exception and yields `[]`, so the oracle is total);
the code's `continue` on an empty per-query list only skips logging, so the
union of all results is the concatenation. -/
def researcher_node (settings : Settings) (search : String → List RawResult)
    (summarize : Nat → Option String) (state : ResearchState) : ResearchState :=
  match ensure_research_plan state.task_plan with
  | none =>
    { state with
      messages := state.messages ++ [aiMsg "エラー: 調査計画が設定されていません"]
      next_action := "end" }
  | some plan =>
    let existing_urls := state.research_data.map (·.url)
    let all_search_results := (plan.search_queries.map search).flatten
    let unique_results := dedupByUrl existing_urls all_search_results []
    let new_results := summarizeAll settings summarize existing_urls 0 unique_results
    let research_data := state.research_data ++ new_results
    let total_count := research_data.length
    { state with
      research_data := research_data
      iteration_count := state.iteration_count + 1
      messages := state.messages ++
        [aiMsg ("検索完了: " ++ toString new_results.length ++
          "件の新しい結果を追加しました（合計: " ++ toString total_count ++ "件）")] }

/-! ## Plan/Route stage (src/nodes/supervisor.py) -/

/-- The progress snapshot computed by `evaluate_progress`. -/
structure Progress where
  data_count : Nat
  data_quality : ℚ
  coverage : ℚ
deriving Repr, DecidableEq

/-- Model of `evaluate_progress` (src/nodes/supervisor.py lines 176-207). -/
def evaluate_progress (state : ResearchState) : Progress :=
  let data_count := state.research_data.length
  let relevance_scores := state.research_data.filterMap (·.relevance_score)
  let data_quality : ℚ :=
    if relevance_scores ≠ [] then relevance_scores.sum / relevance_scores.length
    else 1/2
  let coverage : ℚ :=
    match ensure_research_plan state.task_plan with
    | some plan =>
      if plan.search_queries ≠ [] then
        min 1 ((data_count : ℚ) / (plan.search_queries.length * 2))
      else 0
    | none => 0
  ⟨data_count, data_quality, coverage⟩

/-- Outcome of the delegated routing call in `decide_next_action`:
the whole `try` block catches every exception (LLM raise, empty response,
JSON decode failure), so `failed` covers all of those; `parsed f r` is a
successfully decoded JSON object whose `next_action` and `reasoning` keys
hold `f` and `r` (absent keys are `none`). -/
inductive RoutingOutcome where
  | failed
  | parsed (next_action : Option String) (reasoning : Option String)
deriving Repr, DecidableEq

/-- Model of `decide_next_action` (src/nodes/supervisor.py lines 210-314): the
decision ladder — iteration cap, minimum evidence, first draft, then
delegation to the text-completion capability with fallbacks. -/
def decide_next_action (settings : Settings) (routing : RoutingOutcome)
    (state : ResearchState) (progress : Progress) : String × String :=
  if settings.MAX_ITERATIONS ≤ state.iteration_count then
    ("end", "最大イテレーション数に到達しました")
  else if progress.data_count < 5 then
    ("research", "データが不足しています（現在: " ++ toString progress.data_count ++ "件）")
  else if state.current_draft = none ∧ 5 ≤ progress.data_count then
    ("write", "十分なデータが集まりました。ドラフトを作成します")
  else
    match routing with
    | .failed => ("research", "デフォルトアクション（エラー時）")
    | .parsed next_action reasoning =>
      (next_action.getD "research", reasoning.getD "LLMによる判断")

/-- Steps 3-5 of `supervisor_node` (src/nodes/supervisor.py lines 352-366),
shared by first and later entries: evaluate progress, decide the next
action, log it, set `next_action` and clear `human_input`. -/
def supervisor_route_and_log (settings : Settings) (routing : RoutingOutcome)
    (state1 : ResearchState) : ResearchState :=
  let progress := evaluate_progress state1
  let decision := decide_next_action settings routing state1 progress
  { state1 with
    messages := state1.messages ++
      [aiMsg ("次のアクション: " ++ decision.1 ++ "\n理由: " ++ decision.2)]
    next_action := decision.1
    human_input := none }

/-- Model of `supervisor_node` (src/nodes/supervisor.py lines 317-370), wrapped in
`handle_node_errors`. `planOutcome` is the outcome of
`generate_research_plan` on a first entry: `some p` when it produced a plan
(a parsed plan or the deterministic fallback template — parse errors and
pydantic `ValidationError`s are caught inside and yield the fallback), and
`none` when the call raised through (e.g. retries exhausted), in which case
the decorator appends an error message and forces `next_action = "end"`.
On a later entry the planning capability is not called and `planOutcome`
is ignored. -/
def supervisor_node (settings : Settings) (planOutcome : Option ResearchPlan)
    (routing : RoutingOutcome) (state : ResearchState) : ResearchState :=
  if state.task_plan = none then
    match planOutcome with
    | none =>
      -- generate_research_plan raised; handle_node_errors path
      { state with
        messages := state.messages ++ [aiMsg "エラーが発生しました: (計画生成の例外)"]
        next_action := "end" }
    | some p =>
      supervisor_route_and_log settings routing
        { state with task_plan := some p, human_input := none }
  else
    supervisor_route_and_log settings routing state

/-- Model of `planning_gate_node` (src/nodes/supervisor.py lines 396-401): pass
through unchanged. -/
def planning_gate_node (state : ResearchState) : ResearchState := state

/-! ## Routing edges (src/graph/edges.py) -/

/-- Model of `route_supervisor` (lines 18-33): returns `next_action` (the
`state.get(..., "research")` default never fires, the field is always
present from the initial state on). -/
def route_supervisor (state : ResearchState) : String := state.next_action

/-- Model of `route_reviewer` (lines 36-58): the iteration cap forces `"end"`,
otherwise `next_action` is returned. -/
def route_reviewer (settings : Settings) (state : ResearchState) : String :=
  if settings.MAX_ITERATIONS ≤ state.iteration_count then "end"
  else state.next_action

/-! ## Draft stage (src/nodes/writer.py) -/

/-- Stands in for Python's `f"{x:.2f}"` rendering of a float score. Every
claim is insensitive to the decimal rendering (the text only ever lands in
log messages and prompt digests), so the rational is rendered exactly. -/
def scoreText (q : ℚ) : String := toString q

/-- One item of `format_research_data` (src/nodes/writer.py lines 41-54);
`truncate` is the truthiness of `max_chars`. -/
def formatItem (i : Nat) (result : SearchResult) (truncate : Bool) : String :=
  let summary :=
    if truncate ∧ result.summary.length > 300 then result.summary.take 300 ++ "..."
    else result.summary
  "[ソース" ++ toString i ++ "]\n" ++
  "タイトル: " ++ result.title ++ "\n" ++
  "URL: " ++ result.url ++ "\n" ++
  "要約: " ++ summary ++ "\n" ++
  (match result.relevance_score with
   | some q => "関連性スコア: " ++ scoreText q ++ "\n"
   | none => "") ++ "\n"

/-- The character-capped accumulation loop of `format_research_data`
(src/nodes/writer.py lines 38-68); `total_len` is `len(research_data)`. -/
def formatGo (total_len : Nat) (mc : Option Nat) :
    List SearchResult → Nat → Nat → List String
  | [], _, _ => []
  | r :: rest, i, total_chars =>
    let truncate := mc.getD 0 ≠ 0
    let item := formatItem i r truncate
    if truncate then
      if total_chars + item.length > mc.getD 0 then
        ["\n[注意: 残り" ++ toString (total_len - i) ++ "件のソースは省略されました（文字数制限）]\n"]
      else item :: formatGo total_len mc rest (i + 1) (total_chars + item.length)
    else item :: formatGo total_len mc rest (i + 1) total_chars

/-- Model of `format_research_data` (src/nodes/writer.py lines 26-68). -/
def format_research_data (research_data : List SearchResult)
    (max_chars : Option Nat) : String :=
  String.join (formatGo research_data.length max_chars research_data 1 0)

/-- Model of `extract_markdown_content` (src/nodes/writer.py lines 71-113) on a
string response (the list/dict response shapes flatten to a string before
this logic runs). -/
def extract_markdown_content (response_content : String) : String :=
  let content := if response_content = "" then "" else response_content
  if pyIn "```markdown" content then
    pyStrip (((pySplit ((pySplit content "```markdown").get! 1) "```").get! 0))
  else if pyIn "```" content then
    let parts := pySplit content "```"
    if 3 ≤ parts.length then
      let c :=
        if pyIn "\n" (parts.get! 1) then pyAfterFirstNewline (parts.get! 1)
        else parts.get! 2
      pyStrip (pyRsplit1 c "```")
    else content
  else content

/-- Outcome of one text-completion call through `call_llm_with_retry`:
either the returned content (already flattened to a string) or the message
of the exception that finally propagated after the retries. -/
inductive LLMResult where
  | ok (content : String)
  | raised (err : String)
deriving Repr, DecidableEq

/-- Model of `writer_node` (src/nodes/writer.py lines 116-283). `first` is the
outcome of the main LLM call, `retry` the outcome of the reduced-payload
retry (consulted only on a token-limit-shaped error). Prompt digests
(`feedback_context`, `investigation_points_text`) only flow into the
prompt, i.e. into the oracle, and are not modelled separately (`settings`
is read only to build the LLM instance, so it is not a parameter here). -/
def writer_node (first retry : LLMResult)
    (state : ResearchState) : ResearchState :=
  match ensure_research_plan state.task_plan with
  | none =>
    { state with
      messages := state.messages ++ [aiMsg "エラー: 調査計画が設定されていません"]
      next_action := "end" }
  | some plan =>
    if state.research_data = [] then
      { state with
        messages := state.messages ++ [aiMsg "警告: 研究データが不足しています"]
        next_action := "research" }
    else
      let research_text := format_research_data state.research_data (some 15000)
      match first with
      | .ok c =>
        let draft := extract_markdown_content c
        { state with
          current_draft := some draft
          iteration_count := state.iteration_count + 1
          human_input := none
          messages := state.messages ++
            [aiMsg ("ドラフトを生成しました（長さ: " ++ toString draft.length ++ "文字）")] }
      | .raised err =>
        let error_str := pyLower err
        if pyIn "too large" error_str ∨ pyIn "tokens per min" error_str ∨
            pyIn "requested" error_str then
          let reduced_data :=
            if state.research_data.length > 1 then
              state.research_data.take (state.research_data.length / 2)
            else state.research_data
          let reduced_text := format_research_data reduced_data (some 8000)
          match retry with
          | .ok c =>
            let draft := extract_markdown_content c
            { state with
              current_draft := some draft
              iteration_count := state.iteration_count + 1
              human_input := none
              messages := state.messages ++
                [aiMsg ("⚠️ データを削減してドラフトを生成しました（長さ: " ++
                  toString draft.length ++ "文字）")] }
          | .raised _ =>
            let fallback_draft :=
              "# " ++ plan.theme ++
              "\n\n## 注意\n\nトークン数制限により、収集データを要約してレポートを作成しました。\n\n## 収集データ（要約）\n\n" ++
              reduced_text.take 2000 ++ "...\n\n## エラー詳細\n\n" ++ err.take 500
            { state with
              current_draft := some fallback_draft
              next_action := "review"
              messages := state.messages ++
                [aiMsg "⚠️ トークン数制限により、要約版ドラフトを生成しました"] }
        else if pyIn "ratelimit" error_str ∨ pyIn "rate limit" error_str then
          { state with
            next_action := "research"
            messages := state.messages ++
              [aiMsg "⚠️ APIレート制限に達しました。しばらく待ってから再試行します。"] }
        else
          let fallback_draft :=
            "# " ++ plan.theme ++ "\n\n## エラー\n\nドラフト生成中にエラーが発生しました: " ++
            err.take 500 ++
            "\n\n収集されたデータに基づいて、手動でレポートを作成してください。\n\n## 収集データ（要約）\n\n" ++
            research_text.take 2000 ++ "..."
          { state with
            current_draft := some fallback_draft
            next_action := "review"
            messages := state.messages ++
              [aiMsg "⚠️ ドラフト生成エラーが発生しましたが、フォールバックドラフトを設定しました"] }

/-! ## Critique stage (src/nodes/reviewer.py) -/

/-- The keys of a successfully JSON-decoded evaluation object that
`reviewer_node` reads; absent keys are `none` (the unread `scores` and
`issues` keys are not modelled). -/
structure EvalParsed where
  approved : Option Bool := none
  overall_score : Option ℚ := none
  feedback : Option String := none
  suggested_action : Option String := none
deriving Repr, DecidableEq

/-- The normalized evaluation record `parse_evaluation_result` returns. -/
structure EvalResult where
  approved : Bool
  overall_score : ℚ
  feedback : String
  suggested_action : String
deriving Repr, DecidableEq

/-- Model of `parse_evaluation_result` (src/nodes/reviewer.py lines 69-153): `none`
input models every unparseable response (empty content, JSON decode
failure), which yields the fallback non-approved verdict suggesting
`write`; a decoded object is read with per-key defaults. -/
def parse_evaluation_result (parsed : Option EvalParsed) : EvalResult :=
  match parsed with
  | some r =>
    { approved := r.approved.getD false
      overall_score := r.overall_score.getD 0
      feedback := r.feedback.getD ""
      suggested_action := r.suggested_action.getD "research" }
  | none =>
    { approved := false
      overall_score := 1/2
      feedback := "評価結果のパースに失敗しました。再評価が必要です。"
      suggested_action := "write" }

/-- Outcome of the critique LLM call: the exception message when it raised
after retries, else the JSON-decode result of its content. -/
inductive ReviewOutcome where
  | raised (err : String)
  | returned (parsed : Option EvalParsed)
deriving Repr, DecidableEq

/-- Model of `reviewer_node` (src/nodes/reviewer.py lines 156-241). -/
def reviewer_node (o : ReviewOutcome) (state : ResearchState) : ResearchState :=
  match state.current_draft with
  | none =>
    { state with
      messages := state.messages ++ [aiMsg "エラー: ドラフトが設定されていません"]
      next_action := "write" }
  | some _ =>
    match o with
    | .raised err =>
      { state with
        messages := state.messages ++ [aiMsg ("評価エラー: " ++ err)]
        next_action := "write" }
    | .returned parsed =>
      let ev := parse_evaluation_result parsed
      if ev.approved then
        { state with
          next_action := "end"
          feedback := none
          messages := state.messages ++
            [aiMsg ("レビュー完了: ドラフトは承認されました（総合スコア: " ++
              scoreText ev.overall_score ++ "）")]
          iteration_count := state.iteration_count + 1 }
      else
        { state with
          next_action := ev.suggested_action
          feedback := some ev.feedback
          messages := state.messages ++
            [aiMsg ("レビュー結果: 改善が必要\n総合スコア: " ++
              scoreText ev.overall_score ++ "\nフィードバック: " ++ ev.feedback)]
          iteration_count := state.iteration_count + 1 }

/-! ## Workflow graph (src/graph/graph_builder.py) -/

/-- The nodes of the compiled graph plus the two halting situations:
`End_` is LangGraph's `END`, `Failed` models the runtime error LangGraph
raises when a conditional edge returns a key absent from its mapping
(which aborts the session as `failed`). -/
inductive Loc where
  | Supervisor
  | PlanningGate
  | Researcher
  | Writer
  | Reviewer
  | End_
  | Failed
deriving Repr, DecidableEq

/-- A point of the execution: current node about to run (or halt marker)
and the shared state. -/
structure Config where
  loc : Loc
  state : ResearchState
deriving Repr, DecidableEq

/-- The conditional-edge mapping out of `supervisor`
(src/graph/graph_builder.py lines 59-67). -/
def applySupervisorRoute (a : String) : Loc :=
  if a = "research" then .PlanningGate
  else if a = "write" then .Writer
  else if a = "end" then .End_
  else .Failed

/-- The conditional-edge mapping out of `reviewer`
(src/graph/graph_builder.py lines 79-87). -/
def applyReviewerRoute (a : String) : Loc :=
  if a = "research" then .Researcher
  else if a = "write" then .Writer
  else if a = "end" then .End_
  else .Failed

/-- One step's worth of external-capability behavior: all the oracle
values any single node execution can consume. -/
structure Oracle where
  planOutcome : Option ResearchPlan
  routing : RoutingOutcome
  search : String → List RawResult
  summarize : Nat → Option String
  writerResult : LLMResult
  writerRetry : LLMResult
  reviewerResult : ReviewOutcome

/-- One stage transition of the compiled graph: run the node at the current
location, then follow its (possibly conditional) outgoing edge. Halting
locations are absorbing. -/
def step (settings : Settings) (o : Oracle) (c : Config) : Config :=
  match c.loc with
  | .Supervisor =>
    let s := supervisor_node settings o.planOutcome o.routing c.state
    ⟨applySupervisorRoute (route_supervisor s), s⟩
  | .PlanningGate => ⟨.Researcher, planning_gate_node c.state⟩
  | .Researcher => ⟨.Supervisor, researcher_node settings o.search o.summarize c.state⟩
  | .Writer => ⟨.Reviewer, writer_node o.writerResult o.writerRetry c.state⟩
  | .Reviewer =>
    let s := reviewer_node o.reviewerResult c.state
    ⟨applyReviewerRoute (route_reviewer settings s), s⟩
  | .End_ => c
  | .Failed => c

/-- A behavior of the external capabilities: one `Oracle` per step index. -/
def Behavior := Nat → Oracle

/-- The execution of the graph from its entry point (`supervisor`) on the
initial state for `theme`, under behavior `b`. -/
def exec (settings : Settings) (b : Behavior) (theme : String) : Nat → Config
  | 0 => ⟨.Supervisor, initialState theme⟩
  | n + 1 => step settings (b n) (exec settings b theme n)

/-- The execution has halted: reached `END` or aborted on an unroutable
stage name. -/
def halted (c : Config) : Prop := c.loc = .End_ ∨ c.loc = .Failed

instance (c : Config) : Decidable (halted c) := by
  unfold halted; infer_instance

/-- A step's oracle is non-raising for the Draft and Critique stages: the
text-completion calls there return output (possibly malformed) instead of
raising. Search failures, summarization failures, planning failures and
delegated-routing failures remain unconstrained. -/
def nonRaisingWR (o : Oracle) : Prop :=
  (∃ c, o.writerResult = .ok c) ∧ (∃ p, o.reviewerResult = .returned p)

/-! ## Session manager (src/api/research_manager.py, src/api/main.py) -/

/-- One in-memory entry of `ResearchManager.researches` (and also the shape
`_load_research` returns, with `enable_human_intervention` absent, i.e.
falsy, and timestamps abstracted to `Nat`). -/
structure SessionRec where
  status : String
  theme : String := ""
  max_iterations : Nat := 5
  enable_human_intervention : Bool := false
  created_at : Option Nat := none
  completed_at : Option Nat := none
  result : Option ResearchState := none
deriving Repr, DecidableEq

/-- One durable file `{persist_dir}/{rid}.json`: the payload keys the
listing reads (each may be absent, `dict.get` semantics), plus `corrupt`
marking a file whose JSON fails to decode. -/
structure PersistRec where
  research_id : Option String := none
  status : Option String := none
  theme : Option String := none
  created_at : Option Nat := none
  completed_at : Option Nat := none
  corrupt : Bool := false
deriving Repr, DecidableEq

/-- The run-time state of a `ResearchManager`: the in-memory registry, the
graph handles (abstracted to their checkpointed state snapshot), and the
durable storage directory keyed by session id. -/
structure ManagerState where
  researches : List (String × SessionRec)
  graphs : List (String × Option ResearchState)
  persisted : List (String × PersistRec)
deriving DecidableEq

/-- One row of `list_persisted_researches`'s output. -/
structure HistoryItem where
  research_id : String
  theme : String
  created_at : Option Nat
  completed_at : Option Nat
  status : String
deriving Repr, DecidableEq

/-- Replace the value stored under `k` (Python `d[k] = v` on an existing
key). -/
def updateKey {α : Type} (l : List (String × α)) (k : String) (v : α) :
    List (String × α) :=
  l.map (fun p => if p.1 = k then (k, v) else p)

/-- Model of `ResearchManager.list_persisted_researches` (lines 250-293): in-memory
entries, then non-corrupt durable records absent from memory, sorted by
`created_at or datetime.min` descending (Python's stable sort). -/
def list_persisted_researches (m : ManagerState) : List HistoryItem :=
  let memItems := m.researches.map fun p =>
    HistoryItem.mk p.1 p.2.theme p.2.created_at p.2.completed_at p.2.status
  let fileItems := m.persisted.filterMap fun p =>
    if (m.researches.lookup p.1).isSome then none
    else if p.2.corrupt then none
    else some (HistoryItem.mk (p.2.research_id.getD p.1) (p.2.theme.getD "")
      p.2.created_at p.2.completed_at (p.2.status.getD "completed"))
  (memItems ++ fileItems).mergeSort fun a b =>
    b.created_at.getD 0 ≤ a.created_at.getD 0

/-- Model of `ResearchManager._load_research` (lines 225-248): read the durable file
if present and decodable; the payload carries no
`enable_human_intervention` key (falsy) and no graph handle. -/
def load_research (m : ManagerState) (rid : String) : Option SessionRec :=
  match m.persisted.lookup rid with
  | none => none
  | some p =>
    if p.corrupt then none
    else some { status := p.status.getD "", theme := p.theme.getD ""
                created_at := p.created_at, completed_at := p.completed_at }

/-- Model of `ResearchManager.get_research` (lines 294-307): memory first, else the
durable record. -/
def get_research (m : ManagerState) (rid : String) : Option SessionRec :=
  match m.researches.lookup rid with
  | some r => some r
  | none => load_research m rid

/-- The snapshot `ResearchManager.get_status` returns. -/
structure StatusInfo where
  research_id : String
  status : String
  state : Option ResearchState
deriving DecidableEq

/-- Model of `ResearchManager.get_status` (lines 309-336): reads the in-memory
registry and the graph handle only — never durable storage. -/
def get_status (m : ManagerState) (rid : String) : Option StatusInfo :=
  match m.researches.lookup rid with
  | none => none
  | some r =>
    match m.graphs.lookup rid with
    | none => none
    | some g => some ⟨rid, r.status, g⟩

/-- Model of `ResearchManager.delete_research` (lines 381-398): removes the session
from the in-memory registry and the graph table; the durable file is not
touched. -/
def delete_research (m : ManagerState) (rid : String) : Bool × ManagerState :=
  if (m.researches.lookup rid).isSome then
    (true,
      { m with
        researches := m.researches.filter fun p => p.1 ≠ rid
        graphs := m.graphs.filter fun p => p.1 ≠ rid })
  else (false, m)

/-- Model of `ResearchManager.resume_research` (lines 338-379). `invokeOutcome` is
the outcome of `graph.invoke(None, config)`: the final state, or `none`
when it raised (the `except` then returns `False`); `update_state` runs
first and plants `human_input` in the checkpoint. -/
def resume_research (invokeOutcome : Option ResearchState) (m : ManagerState)
    (rid input : String) : Bool × ManagerState :=
  match m.researches.lookup rid with
  | none => (false, m)
  | some r =>
    if ¬ r.enable_human_intervention then (false, m)
    else
      match m.graphs.lookup rid with
      | none => (false, m)
      | some g =>
        let g1 := g.map fun st => { st with human_input := some input }
        match invokeOutcome with
        | none => (false, { m with graphs := updateKey m.graphs rid g1 })
        | some st =>
          (true,
            { m with
              researches := updateKey m.researches rid
                { r with status := "processing", result := some st }
              graphs := updateKey m.graphs rid (some st) })

/-- The error kinds the lifecycle API distinguishes for `resume`
(src/api/main.py lines 337-383): 404 not-found, 400 not-interrupted, 500
internal. -/
inductive ApiError where
  | notFound
  | notInterrupted
  | internalError
deriving Repr, DecidableEq

/-- The `/research/{id}/resume` endpoint (src/api/main.py lines 337-383):
look up the session, reject with 404 when absent, with 400 when its status
is not `interrupted`, and only then fall through to
`ResearchManager.resume_research`. -/
def resume_endpoint (invokeOutcome : Option ResearchState) (m : ManagerState)
    (rid input : String) : Except ApiError Unit × ManagerState :=
  match get_research m rid with
  | none => (.error .notFound, m)
  | some r =>
    if r.status ≠ "interrupted" then (.error .notInterrupted, m)
    else
      let res := resume_research invokeOutcome m rid input
      if res.1 then (.ok (), res.2) else (.error .internalError, res.2)

/-! ## Supporting lemmas about the evidence gatherer -/

/-- A successful pydantic construction returns the record unchanged and
certifies its validity. -/
theorem mkSearchResult_eq_some {r sr : SearchResult}
    (h : mkSearchResult r = some sr) : sr = r ∧ searchResultValid r = true := by
  unfold mkSearchResult at h
  split at h
  · exact ⟨(Option.some_injective _ h).symm, by assumption⟩
  · exact absurd h (by simp)

/-- A result produced by `create_search_result_with_summary` carries the
candidate's url, which was not an existing url, and passed validation. -/
theorem create_eq_some {settings : Settings} {so : Option String}
    {r : RawResult} {ex : List String} {sr : SearchResult}
    (h : create_search_result_with_summary settings so r ex = some sr) :
    sr.url = r.url.getD "" ∧ r.url.getD "" ∉ ex ∧ searchResultValid sr = true := by
  simp only [create_search_result_with_summary] at h
  by_cases hex : r.url.getD "" ∈ ex
  · simp [hex] at h
  · rw [if_neg hex] at h
    rcases mkSearchResult_eq_some h with ⟨rfl, hval⟩
    exact ⟨rfl, hex, hval⟩

theorem mem_dedupByUrl {ex : List String} {l : List RawResult}
    {seen : List String} {r : RawResult} (h : r ∈ dedupByUrl ex l seen) :
    r.url.getD "" ∉ seen ∧ r.url.getD "" ∉ ex ∧ r.url.getD "" ≠ "" ∧ r ∈ l := by
  induction l generalizing seen with
  | nil => simp [dedupByUrl] at h
  | cons a rest ih =>
    unfold dedupByUrl at h
    split at h
    · rcases List.mem_cons.mp h with rfl | h'
      · next hc => exact ⟨hc.2.1, hc.2.2, hc.1, List.mem_cons_self _ _⟩
      · have := ih h'
        exact ⟨fun hs => this.1 (List.mem_cons_of_mem _ hs), this.2.1, this.2.2.1,
          List.mem_cons_of_mem _ this.2.2.2⟩
    · have := ih h
      exact ⟨this.1, this.2.1, this.2.2.1, List.mem_cons_of_mem _ this.2.2.2⟩

/-- In-pass de-duplication yields pairwise distinct urls. -/
theorem dedupByUrl_nodup (ex : List String) (l : List RawResult)
    (seen : List String) :
    ((dedupByUrl ex l seen).map (fun r => r.url.getD "")).Nodup := by
  induction l generalizing seen with
  | nil => simp [dedupByUrl]
  | cons a rest ih =>
    unfold dedupByUrl
    split
    · refine List.nodup_cons.mpr ⟨?_, ih _⟩
      intro hmem
      rcases List.mem_map.mp hmem with ⟨r, hr, hurl⟩
      exact (mem_dedupByUrl hr).1 (hurl ▸ List.mem_cons_self _ _)
    · exact ih _

/-- In-pass de-duplication keeps the first-seen raw result for each url. -/
theorem dedupByUrl_find {ex : List String} {l : List RawResult}
    {seen : List String} {r : RawResult} (h : r ∈ dedupByUrl ex l seen) :
    l.find? (fun x => x.url.getD "" == r.url.getD "") = some r := by
  induction l generalizing seen with
  | nil => simp [dedupByUrl] at h
  | cons a rest ih =>
    have hprops := mem_dedupByUrl h
    unfold dedupByUrl at h
    split at h
    · rcases List.mem_cons.mp h with rfl | h'
      · simp [List.find?_cons]
      · have hne : a.url.getD "" ≠ r.url.getD "" := by
          intro he
          exact (mem_dedupByUrl h').1 (he ▸ List.mem_cons_self _ _)
        have hb : (a.url.getD "" == r.url.getD "") = false := by simpa using hne
        simp only [List.find?_cons, hb, cond_false]
        exact ih h'
    · next hc =>
      have hne : a.url.getD "" ≠ r.url.getD "" := by
        intro he
        rcases not_and_or.mp hc with hc1 | hc2
        · exact hc1 (he ▸ hprops.2.2.1)
        · rcases not_and_or.mp hc2 with hc3 | hc4
          · exact hc3 (he ▸ fun hm => hprops.1 hm)
          · exact hc4 (he ▸ hprops.2.1)
      have hb : (a.url.getD "" == r.url.getD "") = false := by simpa using hne
      simp only [List.find?_cons, hb, cond_false]
      exact ih h

/-- Every collected summarized result stems from a candidate via a
successful `create_search_result_with_summary`. -/
theorem mem_summarizeAll {settings : Settings} {summarize : Nat → Option String}
    {ex : List String} {i : Nat} {cs : List RawResult} {sr : SearchResult}
    (h : sr ∈ summarizeAll settings summarize ex i cs) :
    ∃ j r, r ∈ cs ∧
      create_search_result_with_summary settings (summarize j) r ex = some sr := by
  induction cs generalizing i with
  | nil => simp [summarizeAll] at h
  | cons a rest ih =>
    unfold summarizeAll at h
    split at h
    · next heq =>
      rcases List.mem_cons.mp h with rfl | h'
      · exact ⟨i, a, List.mem_cons_self _ _, heq⟩
      · rcases ih h' with ⟨j, r, hr, hc⟩
        exact ⟨j, r, List.mem_cons_of_mem _ hr, hc⟩
    · rcases ih h with ⟨j, r, hr, hc⟩
      exact ⟨j, r, List.mem_cons_of_mem _ hr, hc⟩

/-- The urls of the collected summarized results form a sublist of the
candidates' urls. -/
theorem summarizeAll_urls_sublist (settings : Settings)
    (summarize : Nat → Option String) (ex : List String) (i : Nat)
    (cs : List RawResult) :
    ((summarizeAll settings summarize ex i cs).map (·.url)).Sublist
      (cs.map (fun r => r.url.getD "")) := by
  induction cs generalizing i with
  | nil => simp [summarizeAll]
  | cons a rest ih =>
    unfold summarizeAll
    split
    · next sr heq =>
      have hu := (create_eq_some heq).1
      simp only [List.map_cons, hu]
      exact (ih (i + 1)).cons₂ _
    · exact (ih (i + 1)).cons _

/-! ## Claim theorems -/

/-- Claim C1: after any execution of the Gather stage (`researcher_node`),
no two entries of `research_data` share a URL — overlapping results within
one pass and URLs already present from earlier passes are deduplicated —
the earlier evidence list is preserved unchanged as a prefix, and each new
entry is the summarization of the first raw result of the pass carrying its
URL (first-seen wins). -/
theorem C1_evidence_urls_unique (settings : Settings)
    (search : String → List RawResult) (summarize : Nat → Option String)
    (state : ResearchState)
    (h : (state.research_data.map (·.url)).Nodup) :
    (((researcher_node settings search summarize state).research_data.map (·.url)).Nodup) ∧
    state.research_data <+: (researcher_node settings search summarize state).research_data ∧
    (∀ p, state.task_plan = some p →
      ∀ sr ∈ (researcher_node settings search summarize state).research_data.drop
          state.research_data.length,
        sr.url ∉ state.research_data.map (·.url) ∧
        ∃ j raw,
          (p.search_queries.map search).flatten.find?
            (fun x => x.url.getD "" == sr.url) = some raw ∧
          create_search_result_with_summary settings (summarize j) raw
            (state.research_data.map (·.url)) = some sr) := by
  rcases hsp : state.task_plan with _ | p
  · refine ⟨?_, ?_, ?_⟩
    · simpa [researcher_node, ensure_research_plan, hsp] using h
    · simp [researcher_node, ensure_research_plan, hsp]
    · intro p hp
      simp [hsp] at hp
  · have hres : (researcher_node settings search summarize state).research_data =
        state.research_data ++
          summarizeAll settings summarize (state.research_data.map (·.url)) 0
            (dedupByUrl (state.research_data.map (·.url))
              ((p.search_queries.map search).flatten) []) := by
      simp [researcher_node, ensure_research_plan, hsp]
    refine ⟨?_, ?_, ?_⟩
    · rw [hres, List.map_append, List.nodup_append]
      refine ⟨h, ?_, ?_⟩
      · exact (summarizeAll_urls_sublist _ _ _ _ _).nodup (dedupByUrl_nodup _ _ _)
      · intro u hu hnu
        rcases List.mem_map.mp hnu with ⟨sr, hsr, rfl⟩
        rcases mem_summarizeAll hsr with ⟨j, raw, hraw, hc⟩
        rcases create_eq_some hc with ⟨hurl, hnex, _⟩
        exact hnex (hurl ▸ hu)
    · rw [hres]
      exact List.prefix_append _ _
    · intro p' hp'
      obtain rfl : p = p' := Option.some_injective _ hp'
      intro sr hsr
      rw [hres, List.drop_left] at hsr
      rcases mem_summarizeAll hsr with ⟨j, raw, hraw, hc⟩
      rcases create_eq_some hc with ⟨hurl, hnex, _⟩
      refine ⟨hurl ▸ hnex, j, raw, ?_, hc⟩
      rw [hurl]
      exact dedupByUrl_find hraw

/-- Concrete search behavior for witnesses: one query returning five hits,
one of them a duplicate URL. -/
def wSearch : String → List RawResult := fun _ =>
  [⟨some "t1", some "content one", some "https://e.com/1", some (mkRat 1 2), none⟩,
   ⟨some "t2", some "content two", some "https://e.com/2", some (mkRat 3 4), none⟩,
   ⟨some "t2b", some "content dup", some "https://e.com/2", some (mkRat 1 4), none⟩,
   ⟨some "t3", some "content three", some "https://e.com/3", some 1, none⟩,
   ⟨some "t4", some "content four", some "https://e.com/4", some 0, none⟩,
   ⟨some "t5", some "content five", some "https://e.com/5", some (mkRat 1 2), none⟩]

/-- Concrete summarization behavior for witnesses: always succeeds. -/
def wSummarize : Nat → Option String := fun _ => some "summary text"

/-- A state that already holds a plan, as on a later Gather entry. -/
def wPlannedState : ResearchState :=
  { initialState "T" with
    task_plan := some ⟨"T", ["point"], ["q"], "plan text here"⟩ }

/-- Witness for C1 at a concrete input with an in-pass duplicate URL. -/
theorem C1_witness :
    (((researcher_node defaultSettings wSearch wSummarize wPlannedState).research_data.map
      (·.url)).Nodup) := by
  have h := C1_evidence_urls_unique defaultSettings wSearch wSummarize wPlannedState
    (by simp [wPlannedState, initialState])
  exact h.1

/-- Claim C3: whenever `iteration_count >= max_iterations`, the Review
routing decision (`route_reviewer`) and the Plan/Route routing decision
(`decide_next_action`) are both forced to `end`, regardless of what the
stage itself (its `next_action` output or the delegated LLM choice) would
have chosen. -/
theorem C3_iteration_cap_both_points (settings : Settings)
    (routing : RoutingOutcome) (state : ResearchState) (progress : Progress)
    (h : settings.MAX_ITERATIONS ≤ state.iteration_count) :
    (decide_next_action settings routing state progress).1 = "end" ∧
    route_reviewer settings state = "end" := by
  constructor
  · simp [decide_next_action, h]
  · simp [route_reviewer, h]

/-- Witness for C3 at the default iteration cap. -/
theorem C3_witness :
    (decide_next_action defaultSettings .failed
      { initialState "T" with iteration_count := 5 }
      (evaluate_progress { initialState "T" with iteration_count := 5 })).1 = "end" ∧
    route_reviewer defaultSettings { initialState "T" with iteration_count := 5 } = "end" :=
  C3_iteration_cap_both_points defaultSettings .failed _ _ (by decide)

/-- The progress snapshot's `data_count` is the evidence count. -/
theorem evaluate_progress_data_count (state : ResearchState) :
    (evaluate_progress state).data_count = state.research_data.length := rfl

/-- Claim C4: on a later Plan/Route entry the routing decision follows the
ladder in order — iteration cap forces `end`; fewer than 5 evidence entries
forces `gather` (= `"research"`); a null draft with at least 5 entries
forces `write`; otherwise the decision is delegated to the text-completion
capability, defaulting to `gather` when its output is malformed
(`decide_next_action` does not read the plan, so the ladder holds on any
entry). -/
theorem C4_decision_ladder (settings : Settings) (routing : RoutingOutcome)
    (state : ResearchState) :
    (settings.MAX_ITERATIONS ≤ state.iteration_count →
      (decide_next_action settings routing state (evaluate_progress state)).1 = "end") ∧
    (state.iteration_count < settings.MAX_ITERATIONS →
      state.research_data.length < 5 →
      (decide_next_action settings routing state (evaluate_progress state)).1 = "research") ∧
    (state.iteration_count < settings.MAX_ITERATIONS →
      5 ≤ state.research_data.length → state.current_draft = none →
      (decide_next_action settings routing state (evaluate_progress state)).1 = "write") ∧
    (state.iteration_count < settings.MAX_ITERATIONS →
      5 ≤ state.research_data.length → state.current_draft ≠ none →
      routing = .failed →
      (decide_next_action settings routing state (evaluate_progress state)).1 = "research") ∧
    (∀ reasoning, state.iteration_count < settings.MAX_ITERATIONS →
      5 ≤ state.research_data.length → state.current_draft ≠ none →
      routing = .parsed none reasoning →
      (decide_next_action settings routing state (evaluate_progress state)).1 = "research") ∧
    (∀ a reasoning, state.iteration_count < settings.MAX_ITERATIONS →
      5 ≤ state.research_data.length → state.current_draft ≠ none →
      routing = .parsed (some a) reasoning →
      (decide_next_action settings routing state (evaluate_progress state)).1 = a) := by
  refine ⟨?_, ?_, ?_, ?_, ?_, ?_⟩
  · intro h
    simp [decide_next_action, h]
  · intro h1 h2
    simp [decide_next_action, evaluate_progress_data_count, not_le.mpr h1, h2]
  · intro h1 h2 h3
    simp [decide_next_action, evaluate_progress_data_count, not_le.mpr h1,
      not_lt.mpr h2, h3, h2]
  · intro h1 h2 h3 h4
    subst h4
    simp [decide_next_action, evaluate_progress_data_count, not_le.mpr h1,
      not_lt.mpr h2, h3]
  · intro reasoning h1 h2 h3 h4
    subst h4
    simp [decide_next_action, evaluate_progress_data_count, not_le.mpr h1,
      not_lt.mpr h2, h3]
  · intro a reasoning h1 h2 h3 h4
    subst h4
    simp [decide_next_action, evaluate_progress_data_count, not_le.mpr h1,
      not_lt.mpr h2, h3]

/-- Five valid evidence entries with distinct URLs. -/
def wEvidence : List SearchResult :=
  [⟨"t1", "s1", "tavily", "https://e.com/1", none, none, none, some (mkRat 1 2)⟩,
   ⟨"t2", "s2", "tavily", "https://e.com/2", none, none, none, some (mkRat 3 4)⟩,
   ⟨"t3", "s3", "tavily", "https://e.com/3", none, none, none, some 1⟩,
   ⟨"t4", "s4", "tavily", "https://e.com/4", none, none, none, some 0⟩,
   ⟨"t5", "s5", "tavily", "https://e.com/5", none, none, none, some (mkRat 1 2)⟩]

/-- A later-entry state: plan set, five evidence entries, no draft yet. -/
def wRouteState : ResearchState :=
  { initialState "T" with
    task_plan := some ⟨"T", ["point"], ["q"], "plan text here"⟩
    research_data := wEvidence }

/-- Witness for C4: with five evidence entries and no draft, the decision
is `write`. -/
theorem C4_witness :
    (decide_next_action defaultSettings .failed wRouteState
      (evaluate_progress wRouteState)).1 = "write" :=
  (C4_decision_ladder defaultSettings .failed wRouteState).2.2.1
    (by decide) (by decide) (by decide)

/-- Claim C7 counterexample: on a state whose plan is null, the Draft stage
routes to `"end"`, not to gather (`"research"`) as the claim states. -/
theorem C7_counterexample :
    (writer_node (.ok "text") (.ok "text") (initialState "T")).next_action = "end" ∧
    "end" ≠ "research" := by
  constructor
  · rfl
  · decide

/-- Claim C7 amended: with a null plan the Draft stage emits an error
message and routes to `end`; with a plan but an empty evidence list it
emits a warning and routes to gather; in both cases the draft is unchanged
and the text-completion capability is not called (the outcome is
independent of the LLM oracles). -/
theorem C7_amended_preconditions (first retry first' retry' : LLMResult)
    (state : ResearchState) :
    (state.task_plan = none →
      (writer_node first retry state).next_action = "end" ∧
      (writer_node first retry state).current_draft = state.current_draft ∧
      (writer_node first retry state).messages =
        state.messages ++ [aiMsg "エラー: 調査計画が設定されていません"] ∧
      writer_node first retry state = writer_node first' retry' state) ∧
    (state.task_plan ≠ none → state.research_data = [] →
      (writer_node first retry state).next_action = "research" ∧
      (writer_node first retry state).current_draft = state.current_draft ∧
      (writer_node first retry state).messages =
        state.messages ++ [aiMsg "警告: 研究データが不足しています"] ∧
      writer_node first retry state = writer_node first' retry' state) := by
  constructor
  · intro h
    simp [writer_node, ensure_research_plan, h]
  · intro h hdata
    obtain ⟨p, hp⟩ := Option.ne_none_iff_exists'.mp h
    simp [writer_node, ensure_research_plan, hp, hdata]

/-- Witness for C7 amended: both precondition failures at concrete states. -/
theorem C7_witness :
    (writer_node (.ok "x") (.ok "x") (initialState "T")).next_action = "end" ∧
    (writer_node (.ok "x") (.ok "x") wPlannedState).next_action = "research" :=
  ⟨((C7_amended_preconditions (.ok "x") (.ok "x") (.ok "x") (.ok "x")
      (initialState "T")).1 rfl).1,
   ((C7_amended_preconditions (.ok "x") (.ok "x") (.ok "x") (.ok "x")
      wPlannedState).2 (by decide) rfl).1⟩

/-- Claim C8: if the text-completion capability returns malformed output
(without raising), the Draft stage still stores a non-null draft — the
extracted text of whatever came back — and the Critique stage still
produces a non-null routing decision: the non-approved fallback verdict
routing to `write`. -/
theorem C8_degradation_no_stall (content : String) (retry : LLMResult)
    (s s' : ResearchState) (d : String)
    (hplan : s.task_plan ≠ none) (hdata : s.research_data ≠ [])
    (hdraft : s'.current_draft = some d) :
    (writer_node (.ok content) retry s).current_draft =
      some (extract_markdown_content content) ∧
    (writer_node (.ok content) retry s).current_draft ≠ none ∧
    (reviewer_node (.returned none) s').next_action = "write" ∧
    (parse_evaluation_result none).approved = false := by
  obtain ⟨p, hp⟩ := Option.ne_none_iff_exists'.mp hplan
  refine ⟨?_, ?_, ?_, rfl⟩
  · simp [writer_node, ensure_research_plan, hp, hdata]
  · simp [writer_node, ensure_research_plan, hp, hdata]
  · simp [reviewer_node, hdraft, parse_evaluation_result]

/-- A state with a plan, evidence, and a draft, as seen by the reviewer. -/
def wDraftedState : ResearchState :=
  { wRouteState with current_draft := some "# draft" }

/-- Witness for C8 with malformed output at concrete states. -/
theorem C8_witness :
    (writer_node (.ok "not json at all") (.ok "x") wRouteState).current_draft =
      some (extract_markdown_content "not json at all") ∧
    (reviewer_node (.returned none) wDraftedState).next_action = "write" :=
  ⟨(C8_degradation_no_stall "not json at all" (.ok "x") wRouteState wDraftedState
      "# draft" (by decide) (by decide) rfl).1,
   (C8_degradation_no_stall "not json at all" (.ok "x") wRouteState wDraftedState
      "# draft" (by decide) (by decide) rfl).2.2.1⟩

/-- The record that `_create_search_result_with_summary` submits to
pydantic when the summarization call fails: summary is the truncated
prefix of the raw content. -/
def fallbackCandidate (settings : Settings) (r : RawResult) : SearchResult :=
  { title := r.title.getD ""
    summary :=
      if (r.content.getD "").length > settings.SUMMARY_MAX_LENGTH then
        (r.content.getD "").take settings.SUMMARY_MAX_LENGTH
      else r.content.getD ""
    source := "tavily"
    url := r.url.getD ""
    published_date := r.published_date
    relevance_score := some (r.score.getD 0) }

/-- Claim C9 counterexample: a unique candidate (URL not among existing
evidence) whose raw content is empty and whose summarization call fails is
dropped — `_create_search_result_with_summary` returns `None` because the
fallback summary fails `SearchResult` validation — contradicting "the
candidate is still appended; no unique candidate is dropped". -/
theorem C9_counterexample :
    (RawResult.url ⟨some "t", some "", some "https://example.com/a",
      some (mkRat 1 2), none⟩).getD "" ∉ ([] : List String) ∧
    create_search_result_with_summary defaultSettings none
      ⟨some "t", some "", some "https://example.com/a", some (mkRat 1 2), none⟩ [] =
      none := by
  constructor
  · simp
  · decide

/-- Claim C9 amended: for a unique candidate whose summarization call
fails, the summary falls back to a truncated prefix of the raw content, and
the candidate is appended exactly when the resulting record passes the
`SearchResult` validation (non-empty title and summary, summary at most
2000 chars, http(s) URL, score in [0,1]); a candidate whose fallback record
fails validation is dropped (with a logged warning). -/
theorem C9_summary_fallback (settings : Settings) (r : RawResult)
    (existing : List String) (h : r.url.getD "" ∉ existing) :
    create_search_result_with_summary settings none r existing =
      (if searchResultValid (fallbackCandidate settings r) then
        some (fallbackCandidate settings r)
      else none) := by
  simp [create_search_result_with_summary, mkSearchResult, fallbackCandidate, h]

/-- A raw hit with non-empty content, for the C9 witness. -/
def wRawOk : RawResult :=
  ⟨some "t", some "hello world", some "https://example.com/b", some (mkRat 1 2), none⟩

/-- Witness for C9: the fallback record of `wRawOk` passes validation, so
the candidate is kept with the truncated-prefix summary. -/
theorem C9_witness :
    create_search_result_with_summary defaultSettings none wRawOk [] =
      some (fallbackCandidate defaultSettings wRawOk) := by
  have h := C9_summary_fallback defaultSettings wRawOk [] (by simp)
  rw [h]
  decide

/-- Claim C10: every entry the Gather stage appends to the evidence list
satisfies the `SearchResult` constraints — non-empty URL beginning with
http:// or https://, non-empty title, non-empty summary of at most 2000
characters, and a relevance score in [0,1] when present; raw results with
a missing or empty URL are never appended. -/
theorem C10_appended_entries_valid (settings : Settings)
    (search : String → List RawResult) (summarize : Nat → Option String)
    (state : ResearchState) :
    ∀ sr ∈ (researcher_node settings search summarize state).research_data.drop
        state.research_data.length,
      sr.url ≠ "" ∧
      (strStartsWith sr.url "http://" ∨ strStartsWith sr.url "https://") ∧
      sr.title ≠ "" ∧ sr.summary ≠ "" ∧ sr.summary.length ≤ 2000 ∧
      ∀ q, sr.relevance_score = some q → 0 ≤ q ∧ q ≤ 1 := by
  rcases hsp : state.task_plan with _ | p
  · intro sr hsr
    have : (researcher_node settings search summarize state).research_data =
        state.research_data := by
      simp [researcher_node, ensure_research_plan, hsp]
    rw [this, List.drop_length] at hsr
    simp at hsr
  · intro sr hsr
    have hres : (researcher_node settings search summarize state).research_data =
        state.research_data ++
          summarizeAll settings summarize (state.research_data.map (·.url)) 0
            (dedupByUrl (state.research_data.map (·.url))
              ((p.search_queries.map search).flatten) []) := by
      simp [researcher_node, ensure_research_plan, hsp]
    rw [hres, List.drop_left] at hsr
    rcases mem_summarizeAll hsr with ⟨j, raw, hraw, hc⟩
    have hval := (create_eq_some hc).2.2
    simp only [searchResultValid, Bool.and_eq_true, decide_eq_true_eq,
      Bool.or_eq_true] at hval
    obtain ⟨⟨⟨⟨⟨⟨⟨⟨⟨hta, htb⟩, hsa⟩, hsb⟩, hsrc⟩, hurl⟩, hpub⟩, hauth⟩, hcat⟩,
      hscore⟩ := hval
    refine ⟨?_, hurl, ?_, ?_, hsb, ?_⟩
    · intro he
      rcases hurl with hu | hu <;> rw [he] at hu <;> exact absurd hu (by decide)
    · intro he
      rw [he] at hta
      simp at hta
    · intro he
      rw [he] at hsa
      simp at hsa
    · intro q hq
      rw [hq] at hscore
      simpa using hscore

/-- The entry the witness run appends first. -/
def wFirstEntry : SearchResult :=
  ⟨"t1", "summary text", "tavily", "https://e.com/1", none, none, none,
   some (mkRat 1 2)⟩

/-- Witness for C10: the first entry of a concrete Gather run satisfies
all the constraints. -/
theorem C10_witness :
    wFirstEntry.url ≠ "" ∧
    (strStartsWith wFirstEntry.url "http://" ∨ strStartsWith wFirstEntry.url "https://") ∧
    wFirstEntry.title ≠ "" ∧ wFirstEntry.summary ≠ "" ∧
    wFirstEntry.summary.length ≤ 2000 ∧
    ∀ q, wFirstEntry.relevance_score = some q → 0 ≤ q ∧ q ≤ 1 :=
  C10_appended_entries_valid defaultSettings wSearch wSummarize wPlannedState
    wFirstEntry (by decide)

/-- Looking up a key in a list filtered to exclude that key yields nothing. -/
theorem lookup_filter_ne {α : Type} (l : List (String × α)) (k : String) :
    (l.filter (fun p => p.1 ≠ k)).lookup k = none := by
  induction l with
  | nil => simp
  | cons a rest ih =>
    by_cases h : a.1 = k
    · simpa [List.filter_cons, h] using ih
    · have hb : (k == a.1) = false := by simpa using Ne.symm h
      simpa [List.filter_cons, h, List.lookup, hb] using ih

/-- A successful lookup certifies membership of the pair. -/
theorem lookup_mem {α : Type} {l : List (String × α)} {k : String} {v : α}
    (h : l.lookup k = some v) : (k, v) ∈ l := by
  induction l with
  | nil => simp [List.lookup] at h
  | cons a rest ih =>
    rw [List.lookup] at h
    split at h
    · next hb =>
      obtain rfl : k = a.1 := by simpa using hb
      obtain rfl : v = a.2 := by simpa using h.symm
      exact List.mem_cons_self _ _
    · exact List.mem_cons_of_mem _ (ih h)

/-- A completed, persisted session as registered by the manager. -/
def wSessionRec : SessionRec :=
  { status := "completed", theme := "T", created_at := some 10
    completed_at := some 20 }

/-- The matching durable record written by `_save_research`. -/
def wPersistRec : PersistRec :=
  { research_id := some "s1", status := some "completed", theme := some "T"
    created_at := some 10, completed_at := some 20 }

/-- A manager holding one completed session that has been persisted. -/
def wManager : ManagerState :=
  { researches := [("s1", wSessionRec)]
    graphs := [("s1", some (initialState "T"))]
    persisted := [("s1", wPersistRec)] }

/-- Claim C5 counterexample: deleting a persisted (completed) session
succeeds but the session still appears in `list_persisted_researches`,
because `delete_research` never removes the durable record — contradicting
"removes the session ... from durable storage, so that immediately
afterwards the session no longer appears in `list_persisted()`". -/
theorem C5_counterexample :
    (delete_research wManager "s1").1 = true ∧
    "s1" ∈ ((list_persisted_researches (delete_research wManager "s1").2).map
      (·.research_id)) := by
  constructor
  · decide
  · unfold list_persisted_researches
    rw [List.mem_map]
    refine ⟨⟨"s1", "T", some 10, some 20, "completed"⟩, ?_, rfl⟩
    rw [List.mem_mergeSort]
    decide

/-- Claim C5 amended: `delete_research` removes the session from the
in-memory active set and graph registry only; durable storage is untouched,
so a session with a readable durable record still appears in
`list_persisted()` afterwards, while `get_status` on the deleted id does
report not found (it reads only the in-memory set). -/
theorem C5_delete_semantics (m : ManagerState) (rid : String) (p : PersistRec)
    (hp : m.persisted.lookup rid = some p) (hc : p.corrupt = false) :
    ((delete_research m rid).1 = true ↔ (m.researches.lookup rid).isSome) ∧
    (delete_research m rid).2.persisted = m.persisted ∧
    get_status (delete_research m rid).2 rid = none ∧
    p.research_id.getD rid ∈
      ((list_persisted_researches (delete_research m rid).2).map
        (·.research_id)) := by
  have hdel2 : ((delete_research m rid).2.researches.lookup rid) = none := by
    unfold delete_research
    split
    · next hs => simpa using lookup_filter_ne m.researches rid
    · next hs => simpa using Option.not_isSome_iff_eq_none.mp hs
  refine ⟨?_, ?_, ?_, ?_⟩
  · unfold delete_research
    split
    · next hs => simpa using hs
    · next hs => simpa using hs
  · unfold delete_research
    split <;> simp
  · unfold get_status
    rw [hdel2]
  · have hpers : (delete_research m rid).2.persisted = m.persisted := by
      unfold delete_research
      split <;> simp
    have hmem : (rid, p) ∈ (delete_research m rid).2.persisted :=
      hpers ▸ lookup_mem hp
    refine List.mem_map.mpr ⟨HistoryItem.mk (p.research_id.getD rid)
      (p.theme.getD "") p.created_at p.completed_at (p.status.getD "completed"),
      ?_, rfl⟩
    unfold list_persisted_researches
    rw [List.mem_mergeSort]
    refine List.mem_append_right _ (List.mem_filterMap.mpr ⟨(rid, p), hmem, ?_⟩)
    rw [hdel2]
    simp [hc]

/-- Witness for C5 amended at the concrete manager. -/
theorem C5_witness :
    get_status (delete_research wManager "s1").2 "s1" = none :=
  (C5_delete_semantics wManager "s1" wPersistRec (by decide) rfl).2.2.1

/-- Claim C6: resuming a session whose status is not `interrupted` is
rejected with the distinct not-interrupted error kind (HTTP 400, different
from not-found's 404) and the manager state is not mutated. -/
theorem C6_resume_rejected (invokeOutcome : Option ResearchState)
    (m : ManagerState) (rid input : String) (r : SessionRec)
    (hr : get_research m rid = some r) (hs : r.status ≠ "interrupted") :
    resume_endpoint invokeOutcome m rid input = (.error .notInterrupted, m) ∧
    ApiError.notInterrupted ≠ ApiError.notFound := by
  refine ⟨?_, by decide⟩
  unfold resume_endpoint
  rw [hr]
  simp [hs]

/-- Witness for C6 at a completed (hence non-interrupted) session. -/
theorem C6_witness :
    resume_endpoint none wManager "s1" "go" =
      (.error .notInterrupted, wManager) :=
  (C6_resume_rejected none wManager "s1" "go" wSessionRec (by decide)
    (by decide)).1

/-! ## Termination machinery for the workflow graph -/

/-- Weight of a location inside the termination measure. -/
def locWeight : Loc → Nat
  | .Supervisor => 3
  | .PlanningGate => 2
  | .Researcher => 1
  | .Writer => 2
  | .Reviewer => 1
  | .End_ => 0
  | .Failed => 0

/-- Termination measure: remaining iteration budget weighted, plus the
location weight. -/
def rank (settings : Settings) (c : Config) : Nat :=
  4 * (settings.MAX_ITERATIONS - c.state.iteration_count) + locWeight c.loc

/-- Invariant of reachable configurations: Gather, the gate and Draft are
only entered below the iteration cap with a plan in place; Draft and
Critique are only entered with at least the minimum evidence; Critique is
only entered with a draft present. -/
def Inv (settings : Settings) (c : Config) : Prop :=
  (c.loc = .PlanningGate →
    c.state.task_plan ≠ none ∧
    c.state.iteration_count < settings.MAX_ITERATIONS) ∧
  (c.loc = .Researcher →
    c.state.task_plan ≠ none ∧
    c.state.iteration_count < settings.MAX_ITERATIONS) ∧
  (c.loc = .Writer →
    c.state.task_plan ≠ none ∧
    c.state.iteration_count < settings.MAX_ITERATIONS ∧
    5 ≤ c.state.research_data.length) ∧
  (c.loc = .Reviewer →
    c.state.current_draft ≠ none ∧ 5 ≤ c.state.research_data.length ∧
    c.state.task_plan ≠ none)

/-- A non-halted location has positive weight. -/
theorem locWeight_pos {c : Config} (h : ¬ halted c) : 1 ≤ locWeight c.loc := by
  rcases hc : c.loc <;> simp [locWeight]
  · exact h (Or.inl hc)
  · exact h (Or.inr hc)

/-- The supervisor's conditional edge only reaches the gate on `research`,
Draft on `write`, and never Gather, Critique or itself. -/
theorem applySupervisorRoute_cases (a : String) :
    (applySupervisorRoute a = .PlanningGate ↔ a = "research") ∧
    (applySupervisorRoute a = .Writer ↔ a = "write") ∧
    applySupervisorRoute a ≠ .Researcher ∧
    applySupervisorRoute a ≠ .Reviewer ∧
    applySupervisorRoute a ≠ .Supervisor := by
  unfold applySupervisorRoute
  split_ifs <;> simp_all

/-- The reviewer's conditional edge only reaches Gather on `research`,
Draft on `write`, and never the gate, Critique or Plan/Route. -/
theorem applyReviewerRoute_cases (a : String) :
    (applyReviewerRoute a = .Researcher ↔ a = "research") ∧
    (applyReviewerRoute a = .Writer ↔ a = "write") ∧
    applyReviewerRoute a ≠ .PlanningGate ∧
    applyReviewerRoute a ≠ .Reviewer ∧
    applyReviewerRoute a ≠ .Supervisor := by
  unfold applyReviewerRoute
  split_ifs <;> simp_all

/-- Both conditional edges lead to locations of weight at most 2. -/
theorem applyRoute_weight (a : String) :
    locWeight (applySupervisorRoute a) ≤ 2 ∧
    locWeight (applyReviewerRoute a) ≤ 2 := by
  constructor <;> [unfold applySupervisorRoute; unfold applyReviewerRoute] <;>
    split_ifs <;> simp [locWeight]

/-- Routing facts of the decision ladder: a `research` decision is only
made below the iteration cap, a `write` decision only below the cap and
with at least 5 evidence entries. -/
theorem decide_next_action_routing (settings : Settings)
    (routing : RoutingOutcome) (st : ResearchState) (p : Progress) :
    ((decide_next_action settings routing st p).1 = "research" →
      st.iteration_count < settings.MAX_ITERATIONS) ∧
    ((decide_next_action settings routing st p).1 = "write" →
      st.iteration_count < settings.MAX_ITERATIONS ∧ 5 ≤ p.data_count) := by
  unfold decide_next_action
  split_ifs with h1 h2 h3
  · exact ⟨fun h => by simp at h, fun h => by simp at h⟩
  · exact ⟨fun _ => not_le.mp h1, fun h => by simp at h⟩
  · exact ⟨fun h => by simp at h, fun _ => ⟨not_le.mp h1, h3.2⟩⟩
  · cases routing with
    | failed =>
      exact ⟨fun _ => not_le.mp h1, fun h => by simp at h⟩
    | parsed na r =>
      exact ⟨fun _ => not_le.mp h1, fun _ => ⟨not_le.mp h1, not_lt.mp h2⟩⟩

/-- What one supervisor execution does to the state: iteration count and
evidence untouched; a `research` or `write` routing decision implies a plan
is in place and the corresponding ladder guards held. -/
theorem supervisor_node_facts (settings : Settings)
    (po : Option ResearchPlan) (ro : RoutingOutcome) (s : ResearchState) :
    (supervisor_node settings po ro s).iteration_count = s.iteration_count ∧
    (supervisor_node settings po ro s).research_data = s.research_data ∧
    ((supervisor_node settings po ro s).next_action = "research" →
      (supervisor_node settings po ro s).task_plan ≠ none ∧
      s.iteration_count < settings.MAX_ITERATIONS) ∧
    ((supervisor_node settings po ro s).next_action = "write" →
      (supervisor_node settings po ro s).task_plan ≠ none ∧
      s.iteration_count < settings.MAX_ITERATIONS ∧
      5 ≤ s.research_data.length) := by
  by_cases hsp : s.task_plan = none
  · rcases po with _ | q
    · -- planning raised: handled by the decorator, next_action = "end"
      rw [supervisor_node.eq_def, if_pos hsp]
      exact ⟨rfl, rfl, fun h => by simp at h, fun h => by simp at h⟩
    · -- first entry, plan produced
      rw [supervisor_node.eq_def, if_pos hsp]
      refine ⟨rfl, rfl, ?_, ?_⟩
      · intro h
        exact ⟨fun hc => by simp [supervisor_route_and_log] at hc,
          (decide_next_action_routing settings ro _ _).1 h⟩
      · intro h
        have hw := (decide_next_action_routing settings ro _ _).2 h
        exact ⟨fun hc => by simp [supervisor_route_and_log] at hc, hw.1, hw.2⟩
  · -- later entry: the stored plan is kept
    rw [supervisor_node.eq_def, if_neg hsp]
    refine ⟨rfl, rfl, ?_, ?_⟩
    · intro h
      refine ⟨?_, (decide_next_action_routing settings ro _ _).1 h⟩
      intro hc
      exact hsp (by simpa [supervisor_route_and_log] using hc)
    · intro h
      have hw := (decide_next_action_routing settings ro _ _).2 h
      refine ⟨?_, hw.1, hw.2⟩
      intro hc
      exact hsp (by simpa [supervisor_route_and_log] using hc)


/-- One Gather execution increments the iteration count and keeps the plan
(when a plan is present). -/
theorem researcher_node_facts (settings : Settings)
    (search : String → List RawResult) (summarize : Nat → Option String)
    (s : ResearchState) (h : s.task_plan ≠ none) :
    (researcher_node settings search summarize s).iteration_count =
      s.iteration_count + 1 ∧
    (researcher_node settings search summarize s).task_plan = s.task_plan := by
  obtain ⟨p, hp⟩ := Option.ne_none_iff_exists'.mp h
  constructor <;> simp [researcher_node, ensure_research_plan, hp]

/-- A Draft execution whose LLM call returns: increments the iteration
count, stores a draft, and keeps evidence and plan. -/
theorem writer_node_ok_facts (content : String) (retry : LLMResult)
    (s : ResearchState) (hplan : s.task_plan ≠ none)
    (hdata : s.research_data ≠ []) :
    (writer_node (.ok content) retry s).iteration_count =
      s.iteration_count + 1 ∧
    (writer_node (.ok content) retry s).current_draft ≠ none ∧
    (writer_node (.ok content) retry s).research_data = s.research_data ∧
    (writer_node (.ok content) retry s).task_plan = s.task_plan := by
  obtain ⟨p, hp⟩ := Option.ne_none_iff_exists'.mp hplan
  refine ⟨?_, ?_, ?_, ?_⟩ <;> simp [writer_node, ensure_research_plan, hp, hdata]

/-- A Critique execution whose LLM call returns: increments the iteration
count and keeps evidence, plan and draft. -/
theorem reviewer_node_returned_facts (pp : Option EvalParsed)
    (s : ResearchState) (hdraft : s.current_draft ≠ none) :
    (reviewer_node (.returned pp) s).iteration_count = s.iteration_count + 1 ∧
    (reviewer_node (.returned pp) s).research_data = s.research_data ∧
    (reviewer_node (.returned pp) s).task_plan = s.task_plan ∧
    (reviewer_node (.returned pp) s).current_draft = s.current_draft := by
  obtain ⟨d, hd⟩ := Option.ne_none_iff_exists'.mp hdraft
  refine ⟨?_, ?_, ?_, ?_⟩ <;> (simp only [reviewer_node, hd]; split_ifs <;> rfl)

/-- Every non-halted step preserves the invariant and strictly decreases
the rank, for a step oracle that does not raise in Draft or Critique. -/
theorem step_decreases (settings : Settings) (o : Oracle) (c : Config)
    (hInv : Inv settings c) (hnr : nonRaisingWR o) (hh : ¬ halted c) :
    Inv settings (step settings o c) ∧
    rank settings (step settings o c) < rank settings c := by
  obtain ⟨loc, st⟩ := c
  obtain ⟨hInvG, hInvR, hInvW, hInvRev⟩ := hInv
  cases loc
  case End_ => exact absurd (Or.inl rfl) hh
  case Failed => exact absurd (Or.inr rfl) hh
  case Supervisor =>
    simp only [step]
    have hf := supervisor_node_facts settings o.planOutcome o.routing st
    constructor
    · refine ⟨?_, ?_, ?_, ?_⟩
      · intro hg
        have ha := ((applySupervisorRoute_cases _).1).mp hg
        have hr := hf.2.2.1 ha
        refine ⟨hr.1, ?_⟩
        rw [hf.1]
        exact hr.2
      · intro hg
        exact absurd hg (applySupervisorRoute_cases _).2.2.1
      · intro hg
        have ha := ((applySupervisorRoute_cases _).2.1).mp hg
        have hw := hf.2.2.2 ha
        refine ⟨hw.1, ?_, ?_⟩
        · rw [hf.1]
          exact hw.2.1
        · rw [hf.2.1]
          exact hw.2.2
      · intro hg
        exact absurd hg (applySupervisorRoute_cases _).2.2.2.1
    · have hw := (applyRoute_weight (route_supervisor
        (supervisor_node settings o.planOutcome o.routing st))).1
      show 4 * (settings.MAX_ITERATIONS -
          (supervisor_node settings o.planOutcome o.routing st).iteration_count) +
          locWeight (applySupervisorRoute (route_supervisor
            (supervisor_node settings o.planOutcome o.routing st))) <
        4 * (settings.MAX_ITERATIONS - st.iteration_count) + 3
      rw [hf.1]
      omega
  case PlanningGate =>
    obtain ⟨hplan, hiter⟩ := hInvG rfl
    simp only [step]
    constructor
    · exact ⟨fun h => by simp at h, fun _ => ⟨hplan, hiter⟩,
        fun h => by simp at h, fun h => by simp at h⟩
    · show 4 * (settings.MAX_ITERATIONS - st.iteration_count) + 1 <
        4 * (settings.MAX_ITERATIONS - st.iteration_count) + 2
      omega
  case Researcher =>
    obtain ⟨hplan, hiter⟩ := hInvR rfl
    have hf := researcher_node_facts settings o.search o.summarize st hplan
    simp only [step]
    constructor
    · exact ⟨fun h => by simp at h, fun h => by simp at h,
        fun h => by simp at h, fun h => by simp at h⟩
    · have hiter2 : st.iteration_count < settings.MAX_ITERATIONS := hiter
      show 4 * (settings.MAX_ITERATIONS -
          (researcher_node settings o.search o.summarize st).iteration_count) + 3 <
        4 * (settings.MAX_ITERATIONS - st.iteration_count) + 1
      rw [hf.1]
      omega
  case Writer =>
    obtain ⟨hplan, hiter, hdata⟩ := hInvW rfl
    obtain ⟨cc, hcc⟩ := hnr.1
    have hne : st.research_data ≠ [] := by
      intro he
      rw [he] at hdata
      simp at hdata
    have hf := writer_node_ok_facts cc o.writerRetry st hplan hne
    simp only [step]
    rw [hcc]
    constructor
    · refine ⟨fun h => by simp at h, fun h => by simp at h,
        fun h => by simp at h, fun _ => ⟨hf.2.1, ?_, ?_⟩⟩
      · rw [hf.2.2.1]
        exact hdata
      · rw [hf.2.2.2]
        exact hplan
    · show 4 * (settings.MAX_ITERATIONS -
          (writer_node (.ok cc) o.writerRetry st).iteration_count) + 1 <
        4 * (settings.MAX_ITERATIONS - st.iteration_count) + 2
      rw [hf.1]
      omega
  case Reviewer =>
    obtain ⟨hdraft, hdata, hplan⟩ := hInvRev rfl
    obtain ⟨pp, hpp⟩ := hnr.2
    have hf := reviewer_node_returned_facts pp st hdraft
    simp only [step]
    rw [hpp]
    by_cases hcap : settings.MAX_ITERATIONS ≤
        (reviewer_node (.returned pp) st).iteration_count
    · have hroute : route_reviewer settings (reviewer_node (.returned pp) st) =
          "end" := by
        simp [route_reviewer, hcap]
      rw [hroute]
      have hend : applyReviewerRoute "end" = .End_ := by decide
      rw [hend]
      constructor
      · exact ⟨fun h => by simp at h, fun h => by simp at h,
          fun h => by simp at h, fun h => by simp at h⟩
      · show 4 * (settings.MAX_ITERATIONS -
            (reviewer_node (.returned pp) st).iteration_count) + 0 <
          4 * (settings.MAX_ITERATIONS - st.iteration_count) + 1
        rw [hf.1] at hcap ⊢
        omega
    · have hroute : route_reviewer settings (reviewer_node (.returned pp) st) =
          (reviewer_node (.returned pp) st).next_action := by
        simp [route_reviewer, hcap]
      rw [hroute]
      have hlt := not_le.mp hcap
      constructor
      · refine ⟨?_, ?_, ?_, ?_⟩
        · intro hg
          exact absurd hg (applyReviewerRoute_cases _).2.2.1
        · intro _
          refine ⟨?_, hlt⟩
          rw [hf.2.2.1]
          exact hplan
        · intro _
          refine ⟨?_, hlt, ?_⟩
          · rw [hf.2.2.1]
            exact hplan
          · rw [hf.2.1]
            exact hdata
        · intro hg
          exact absurd hg (applyReviewerRoute_cases _).2.2.2.1
      · have hw := (applyRoute_weight
          ((reviewer_node (.returned pp) st).next_action)).2
        show 4 * (settings.MAX_ITERATIONS -
            (reviewer_node (.returned pp) st).iteration_count) +
            locWeight (applyReviewerRoute
              ((reviewer_node (.returned pp) st).next_action)) <
          4 * (settings.MAX_ITERATIONS - st.iteration_count) + 1
        rw [hf.1] at hlt ⊢
        omega

/-- Descent: from an invariant configuration the execution halts within
its remaining rank. -/
theorem halts_within (settings : Settings) (b : Behavior) (theme : String)
    (hb : ∀ n, nonRaisingWR (b n)) :
    ∀ k m, Inv settings (exec settings b theme m) →
      rank settings (exec settings b theme m) ≤ k →
      ∃ n, n ≤ m + k ∧ halted (exec settings b theme n) := by
  intro k
  induction k with
  | zero =>
    intro m hInv hrank
    by_cases hh : halted (exec settings b theme m)
    · exact ⟨m, by omega, hh⟩
    · have := locWeight_pos hh
      have : 1 ≤ rank settings (exec settings b theme m) := by
        unfold rank
        omega
      omega
  | succ k ih =>
    intro m hInv hrank
    by_cases hh : halted (exec settings b theme m)
    · exact ⟨m, by omega, hh⟩
    · have hs := step_decreases settings (b m) _ hInv (hb m) hh
      have hexec : exec settings b theme (m + 1) =
          step settings (b m) (exec settings b theme m) := rfl
      rcases ih (m + 1) (by rw [hexec]; exact hs.1)
        (by rw [hexec]; omega) with ⟨n, hn, hhalt⟩
      exact ⟨n, by omega, hhalt⟩

/-- Claim C2 counterexample and amendment, part 1 (the amended theorem):
for every `max_iterations` and every behavior of the external capabilities
whose Draft- and Critique-stage text-completion calls return output
(possibly malformed) rather than raise, the workflow halts — reaches `End`,
or aborts as a failed session on an unroutable delegated stage name —
within `4 * max_iterations + 3` stage transitions. The claim as stated,
which also admits always-raising behaviors, is refuted by
`C2_counterexample`. -/
theorem C2_bounded_halt (settings : Settings) (b : Behavior) (theme : String)
    (hb : ∀ n, nonRaisingWR (b n)) :
    ∃ n, n ≤ 4 * settings.MAX_ITERATIONS + 3 ∧
      halted (exec settings b theme n) := by
  have h0 : Inv settings (exec settings b theme 0) := by
    refine ⟨?_, ?_, ?_, ?_⟩ <;> intro h <;> simp [exec] at h
  have hr : rank settings (exec settings b theme 0) ≤
      4 * settings.MAX_ITERATIONS + 3 := by
    show 4 * (settings.MAX_ITERATIONS - 0) + 3 ≤ 4 * settings.MAX_ITERATIONS + 3
    omega
  rcases halts_within settings b theme hb (4 * settings.MAX_ITERATIONS + 3) 0
    h0 hr with ⟨n, hn, hh⟩
  exact ⟨n, by omega, hh⟩

/-- A behavior whose text-completion calls always return but whose search
finds nothing: planning falls back, routing output is malformed, the draft
and critique come back as unparseable text. -/
def okOracle : Oracle :=
  { planOutcome := some ⟨"T", ["p"], ["q"], "plan text ok"⟩
    routing := .failed
    search := fun _ => []
    summarize := fun _ => none
    writerResult := .ok "draft"
    writerRetry := .ok "draft"
    reviewerResult := .returned none }

/-- Witness for the amended C2 at a concrete non-raising behavior. -/
theorem C2_witness :
    ∃ n, n ≤ 4 * defaultSettings.MAX_ITERATIONS + 3 ∧
      halted (exec defaultSettings (fun _ => okOracle) "T" n) :=
  C2_bounded_halt defaultSettings (fun _ => okOracle) "T"
    (fun _ => ⟨⟨"draft", rfl⟩, ⟨none, rfl⟩⟩)

/-- A behavior under which the Draft- and Critique-stage text-completion
calls always raise (message "boom"), planning succeeds, and the first
Gather pass finds five valid results. -/
def badOracle : Oracle :=
  { planOutcome := some ⟨"T", ["p1"], ["q"], "plan text bad"⟩
    routing := .failed
    search := wSearch
    summarize := wSummarize
    writerResult := .raised "boom"
    writerRetry := .raised "boom"
    reviewerResult := .raised "boom" }

/-- The always-raising behavior. -/
def badBehavior : Behavior := fun _ => badOracle

/-- The Write-Review livelock invariant: location alternates between Draft
and Critique while the iteration count is stuck at 1. -/
def loopP (c : Config) : Prop :=
  (c.loc = .Writer ∨ c.loc = .Reviewer) ∧ c.state.task_plan ≠ none ∧
  c.state.research_data ≠ [] ∧ c.state.iteration_count = 1

/-- A Draft execution whose LLM call raises a generic error: the fallback
draft is stored, `next_action` becomes `review`, and the iteration count is
NOT incremented. -/
theorem writer_node_generic_facts (err : String) (retry : LLMResult)
    (s : ResearchState) (hplan : s.task_plan ≠ none)
    (hdata : s.research_data ≠ [])
    (h1 : pyIn "too large" (pyLower err) = false)
    (h2 : pyIn "tokens per min" (pyLower err) = false)
    (h3 : pyIn "requested" (pyLower err) = false)
    (h4 : pyIn "ratelimit" (pyLower err) = false)
    (h5 : pyIn "rate limit" (pyLower err) = false) :
    (writer_node (.raised err) retry s).iteration_count = s.iteration_count ∧
    (writer_node (.raised err) retry s).research_data = s.research_data ∧
    (writer_node (.raised err) retry s).task_plan = s.task_plan ∧
    (writer_node (.raised err) retry s).next_action = "review" := by
  obtain ⟨p, hp⟩ := Option.ne_none_iff_exists'.mp hplan
  refine ⟨?_, ?_, ?_, ?_⟩ <;>
    simp [writer_node, ensure_research_plan, hp, hdata, h1, h2, h3, h4, h5]

/-- A Critique execution whose LLM call raises: `next_action` becomes
`write` and nothing else relevant changes, whether or not a draft is
present. -/
theorem reviewer_node_raised_facts (err : String) (s : ResearchState) :
    (reviewer_node (.raised err) s).iteration_count = s.iteration_count ∧
    (reviewer_node (.raised err) s).research_data = s.research_data ∧
    (reviewer_node (.raised err) s).task_plan = s.task_plan ∧
    (reviewer_node (.raised err) s).next_action = "write" := by
  refine ⟨?_, ?_, ?_, ?_⟩ <;> (rcases hd : s.current_draft with _ | d <;>
    simp [reviewer_node, hd])

/-- One step of the always-raising behavior preserves the livelock. -/
theorem loopP_step (c : Config) (h : loopP c) :
    loopP (step defaultSettings badOracle c) := by
  obtain ⟨hloc, hplan, hdata, hiter⟩ := h
  obtain ⟨loc, st⟩ := c
  rcases hloc with hl | hl <;> cases hl
  · -- Writer step: generic error branch, on to Reviewer unchanged
    have hplan' : st.task_plan ≠ none := hplan
    have hdata' : st.research_data ≠ [] := hdata
    have hiter' : st.iteration_count = 1 := hiter
    have hf := writer_node_generic_facts "boom" (.raised "boom") st hplan' hdata'
      (by decide) (by decide) (by decide) (by decide) (by decide)
    refine ⟨Or.inr rfl, ?_, ?_, ?_⟩
    · show (writer_node (LLMResult.raised "boom") (LLMResult.raised "boom")
        st).task_plan ≠ none
      rw [hf.2.2.1]
      exact hplan'
    · show (writer_node (LLMResult.raised "boom") (LLMResult.raised "boom")
        st).research_data ≠ []
      rw [hf.2.1]
      exact hdata'
    · show (writer_node (LLMResult.raised "boom") (LLMResult.raised "boom")
        st).iteration_count = 1
      rw [hf.1]
      exact hiter'
  · -- Reviewer step: raise path routes back to Writer unchanged
    have hplan' : st.task_plan ≠ none := hplan
    have hdata' : st.research_data ≠ [] := hdata
    have hiter1 : st.iteration_count = 1 := hiter
    have hf := reviewer_node_raised_facts "boom" st
    have hiter' : (reviewer_node (.raised "boom") st).iteration_count = 1 := by
      rw [hf.1]
      exact hiter1
    have hroute : route_reviewer defaultSettings
        (reviewer_node (.raised "boom") st) = "write" := by
      unfold route_reviewer
      rw [hiter', hf.2.2.2]
      decide
    have hloc' : (step defaultSettings badOracle ⟨Loc.Reviewer, st⟩).loc =
        .Writer := by
      show applyReviewerRoute (route_reviewer defaultSettings
        (reviewer_node (.raised "boom") st)) = .Writer
      rw [hroute]
      decide
    refine ⟨Or.inl hloc', ?_, ?_, ?_⟩
    · show (reviewer_node (.raised "boom") st).task_plan ≠ none
      rw [hf.2.2.1]
      exact hplan'
    · show (reviewer_node (.raised "boom") st).research_data ≠ []
      rw [hf.2.1]
      exact hdata'
    · exact hiter'

/-- After four steps the always-raising run sits at Draft with one
iteration spent. -/
theorem loopP_base : loopP (exec defaultSettings badBehavior "T" 4) := by
  refine ⟨Or.inl ?_, ?_, ?_, ?_⟩ <;> decide

/-- The livelock persists forever. -/
theorem loopP_all (m : Nat) :
    loopP (exec defaultSettings badBehavior "T" (4 + m)) := by
  induction m with
  | zero => exact loopP_base
  | succ m ih => exact loopP_step _ ih

/-- Claim C2 counterexample: with `max_iterations = 5 ≥ 1` and the behavior
`badBehavior` — whose Draft- and Critique-stage text-completion calls
always raise — the workflow never reaches `End`: it cycles Write-Review
forever without incrementing `iteration_count`, so the claimed bound on
stage transitions does not exist. -/
theorem C2_counterexample :
    ¬ ∃ n, (exec defaultSettings badBehavior "T" n).loc = .End_ := by
  rintro ⟨n, hn⟩
  by_cases h4 : n < 4
  · interval_cases n <;> exact absurd hn (by decide)
  · have hm : n = 4 + (n - 4) := by omega
    rw [hm] at hn
    rcases (loopP_all (n - 4)).1 with hl | hl <;> rw [hl] at hn <;> cases hn

end ResearchAgent
